import Mathlib

/-!
Verification development for the tool-augmented dialogue orchestration core
of the `nobody` repository: the tool-calling protocol engine
(`src/llm_router.py`), the tool dispatcher (`src/harada_tools.py`,
`execute_tool`), and the persistent-store tool handlers and derived-state
projections (`src/harada_tools.py`).

The Python source is shallowly embedded: JSON documents become Lean
structures, Python dicts become association lists, `dict.get(k, d)` becomes
an association-list lookup with a default, a raised exception becomes an
`Except.error` / `Option.none` result, and Python's float arithmetic in
`round(x)` / `round(x, 1)` is modelled exactly over `ℚ` with round-half-to-even
(Python 3 `round` semantics on exact values).  `datetime` arithmetic is kept
abstract: date-difference computations are passed in as oracle functions
`String → Option Int` (`none` models a `ValueError` from parsing).
-/

/- ════════════════════════════════════════════════════════════════
   Section 1: generic helpers (Python dict / str / round semantics)
   ════════════════════════════════════════════════════════════════ -/

/-- Python `d.get(k, default)` over an association list (JSON object). -/
def lookupD {α : Type} (l : List (String × α)) (k : String) (d : α) : α :=
  match l.find? (fun p => p.1 == k) with
  | some p => p.2
  | none => d

/-- Python `d.get(k)` over an association list, `none` when the key is absent. -/
def lookupOpt {α : Type} (l : List (String × α)) (k : String) : Option α :=
  (l.find? (fun p => p.1 == k)).map (·.2)

/-- Python 3 `round(x)` on an exact rational: round half to even (banker's
rounding), the behaviour of `round` on floats whose value is exact. -/
def pyRound (q : ℚ) : ℤ :=
  let f := ⌊q⌋
  let r := q - (f : ℚ)
  if r < 1/2 then f
  else if 1/2 < r then f + 1
  else if f % 2 = 0 then f else f + 1

/-- Python 3 `round(x, 1)`: round to one decimal digit, half to even. -/
def pyRound1 (q : ℚ) : ℚ :=
  ((pyRound (q * 10) : ℚ)) / 10

/- ════════════════════════════════════════════════════════════════
   Section 2: tool-calling protocol engine (src/llm_router.py 54-150)
   ════════════════════════════════════════════════════════════════ -/

/-- `LLMRouter.MAX_TOOL_ROUNDS` (src/llm_router.py line 16). -/
def MAX_TOOL_ROUNDS : Nat := 10

/-- The generic fallback apology returned when the round budget is exhausted
(src/llm_router.py line 150). -/
def fallbackText : String := "I had trouble completing that request. Could you try again?"

/-- One requested tool invocation inside a provider message
(`message["tool_calls"][i]`).  `arguments` is `some args` when the payload is
a structured object or a string that decodes to one, and `none` when it is an
undecodable string; `json.loads` failure is degraded to `{}` by the engine
(src/llm_router.py lines 131-137). -/
structure ToolCall where
  id : String
  name : String
  arguments : Option (List (String × String))
deriving DecidableEq

/-- A chat message as the engine sees it.  `content = none` models an absent
`content` key (`message.get("content", …)`), `tool_calls = []` models an
absent or empty `tool_calls` array (both are falsy in Python). -/
structure ChatMessage where
  role : String
  content : Option String
  tool_calls : List ToolCall := []
  tool_call_id : Option String := none
deriving DecidableEq

/-- One provider choice: `result["choices"][0]`.  `finish_reason = none`
models an absent `finish_reason` key (`choice.get("finish_reason", "stop")`,
src/llm_router.py line 118). -/
structure Choice where
  message : ChatMessage
  finish_reason : Option String
deriving DecidableEq

/-- The loop-exit test of src/llm_router.py line 123:
`if not tool_calls or finish_reason == "stop"`. -/
def isFinalChoice (c : Choice) : Bool :=
  c.message.tool_calls.isEmpty || (c.finish_reason.getD "stop") == "stop"

/-- The tool-result message appended for one executed tool call
(src/llm_router.py lines 143-147). -/
def toolResultMessage (executor : String → List (String × String) → String)
    (tc : ToolCall) : ChatMessage :=
  { role := "tool"
  , content := some (executor tc.name (tc.arguments.getD []))
  , tool_calls := []
  , tool_call_id := some tc.id }

/-- The observable outcome of one `chat_with_tools` exchange: the final
answer, the tool invocations executed (in order), and how many provider
calls were made. -/
structure ChatOutcome where
  answer : String
  executed : List (String × List (String × String))
  calls : Nat
deriving DecidableEq

/-- The loop of `chat_with_tools` (src/llm_router.py lines 89-150).  The
provider is modelled as a function from the working message list to the
response choice (network failures, which propagate as exceptions, are out of
scope of this loop).  `fuel` is the number of rounds left, `acc` the executed
tool calls so far, `calls` the provider calls made so far and `last` the
message of the previous round (the `message` variable that line 150 reads
after the loop ends). -/
def chatGo (provider : List ChatMessage → Choice)
    (executor : String → List (String × String) → String) :
    Nat → List ChatMessage → List (String × List (String × String)) → Nat →
    ChatMessage → ChatOutcome
  | 0, _, acc, calls, last => ⟨last.content.getD fallbackText, acc, calls⟩
  | fuel + 1, working, acc, calls, _ =>
    let c := provider working
    let m := c.message
    if isFinalChoice c then
      ⟨m.content.getD "", acc, calls + 1⟩
    else
      let execs := m.tool_calls.map (fun tc => (tc.name, tc.arguments.getD []))
      let results := m.tool_calls.map (toolResultMessage executor)
      chatGo provider executor fuel (working ++ m :: results) (acc ++ execs)
        (calls + 1) m

/-- `LLMRouter.chat_with_tools` for the tool-calling provider path
(src/llm_router.py lines 86-150): builds the working list from the system
prompt and the history and runs the bounded loop. -/
def chat_with_tools (provider : List ChatMessage → Choice)
    (executor : String → List (String × String) → String)
    (system_prompt : String) (messages : List ChatMessage) : ChatOutcome :=
  chatGo provider executor MAX_TOOL_ROUNDS
    ({ role := "system", content := some system_prompt } :: messages) [] 0
    { role := "assistant", content := none }

/- ════════════════════════════════════════════════════════════════
   Section 3: tool dispatcher (src/harada_tools.py 656-681)
   ════════════════════════════════════════════════════════════════ -/

/-- A registered tool handler: takes the argument object and either returns a
result string or raises (modelled as `Except.error message`). -/
def ToolHandler : Type := List (String × String) → Except String String

/-- `_TOOL_FUNCTIONS.get(name)` (src/harada_tools.py line 675), over an
arbitrary registry association list. -/
def findTool (registry : List (String × ToolHandler)) (name : String) :
    Option ToolHandler :=
  (registry.find? (fun p => p.1 == name)).map (·.2)

/-- `execute_tool(name, arguments)` (src/harada_tools.py lines 673-681):
unknown names yield a literal string, a raising handler is caught and turned
into a string.  The Lean return type `String` (not `Except`) is the model of
"never propagates an exception". -/
def execute_tool (registry : List (String × ToolHandler)) (name : String)
    (arguments : List (String × String)) : String :=
  match findTool registry name with
  | none => "Unknown tool: " ++ name
  | some f =>
    match f arguments with
    | Except.ok s => s
    | Except.error msg => "Tool error (" ++ name ++ "): " ++ msg

/- ════════════════════════════════════════════════════════════════
   Section 4: fuzzy name matching (src/harada_tools.py 59-94)
   ════════════════════════════════════════════════════════════════ -/

/-- Python `s.lower()` (ASCII case folding), on a character list. -/
def lowerChars (s : List Char) : List Char := s.map Char.toLower

/-- Python `s.strip()`: drop leading and trailing whitespace. -/
def trimChars (s : List Char) : List Char :=
  ((s.dropWhile Char.isWhitespace).reverse.dropWhile Char.isWhitespace).reverse

/-- Helper for Python `s.split()`: accumulate the current word. -/
def splitWsAux : List Char → List Char → List (List Char)
  | [], acc => if acc.isEmpty then [] else [acc.reverse]
  | c :: cs, acc =>
    if c.isWhitespace then
      if acc.isEmpty then splitWsAux cs [] else acc.reverse :: splitWsAux cs []
    else splitWsAux cs (c :: acc)

/-- Python `s.split()`: split on whitespace runs, no empty tokens. -/
def splitWs (s : List Char) : List (List Char) := splitWsAux s []

/-- Does `s` start with `p`? -/
def startsWithChars : List Char → List Char → Bool
  | [], _ => true
  | _ :: _, [] => false
  | p :: ps, c :: cs => p == c && startsWithChars ps cs

/-- Python `p in s` for strings: `p` occurs contiguously in `s`. -/
def containsChars : List Char → List Char → Bool
  | [], p => p.isEmpty
  | c :: cs, p => startsWithChars p (c :: cs) || containsChars cs p

/-- A habit record (src/harada_tools.py `habits.json` entries).  `active`
defaults to `true` (`h.get("active", True)`); "removal" only clears it. -/
structure Habit where
  id : String
  name : List Char
  active : Bool := true
deriving DecidableEq

/-- The scoring rules of `_fuzzy_match` applied to one candidate, given the
already lowered-and-trimmed query `q` (assumed nonempty): exact equality 100;
else query-substring-of-name `max 40 (|q|/|name| * 90)`; else all query words
occurring inside name words 60; else name-substring-of-query
`max 40 (|name|/|q| * 80)`; else 0 (no match). -/
def candScore (q : List Char) (item : Habit) : ℚ :=
  if q = lowerChars item.name then 100
  else if containsChars (lowerChars item.name) q then
    max 40 ((q.length : ℚ) / ((lowerChars item.name).length : ℚ) * 90)
  else if (splitWs q).all
      (fun qw => (splitWs (lowerChars item.name)).any (fun nw => containsChars nw qw)) then
    60
  else if containsChars q (lowerChars item.name) then
    max 40 (((lowerChars item.name).length : ℚ) / (q.length : ℚ) * 80)
  else 0

/-- The candidate loop of `_fuzzy_match` (src/harada_tools.py lines 65-94),
tracking the best item and the best score; an exact match returns
immediately. -/
def fuzzyGo (q : List Char) :
    List Habit → Option Habit → ℚ → Option Habit × ℚ
  | [], best, bestScore => (best, bestScore)
  | item :: rest, best, bestScore =>
    let nameL := lowerChars item.name
    if q = nameL then (some item, 100)
    else
      let allWordsMatch := (splitWs q).all
        (fun qw => (splitWs nameL).any (fun nw => containsChars nw qw))
      if containsChars nameL q then
        let score : ℚ := max 40 ((q.length : ℚ) / (nameL.length : ℚ) * 90)
        if score > bestScore then fuzzyGo q rest (some item) score
        else fuzzyGo q rest best bestScore
      else if allWordsMatch then
        if (60 : ℚ) > bestScore then fuzzyGo q rest (some item) 60
        else fuzzyGo q rest best bestScore
      else if containsChars q nameL then
        let score : ℚ := max 40 ((nameL.length : ℚ) / (q.length : ℚ) * 80)
        if score > bestScore then fuzzyGo q rest (some item) score
        else fuzzyGo q rest best bestScore
      else fuzzyGo q rest best bestScore

/-- `_fuzzy_match(query, candidates)` (src/harada_tools.py lines 59-94):
lower-case and strip the query, return `(None, 0)` on an empty query, else
scan the candidates. -/
def _fuzzy_match (query : List Char) (candidates : List Habit) :
    Option Habit × ℚ :=
  let q := trimChars (lowerChars query)
  if q.isEmpty then (none, 0)
  else fuzzyGo q candidates none 0

/- ════════════════════════════════════════════════════════════════
   Section 5: persistent store data model (src/harada_tools.py)
   ════════════════════════════════════════════════════════════════ -/

/-- The goal form document `goal-form.json` as written by `setup_goal`
(src/harada_tools.py lines 329-349); entries written by the system always
carry every field. -/
structure GoalForm where
  northStar : String
  purpose : String := ""
  deadline : String := ""
  currentState : String := ""
  gapAnalysis : String := ""
  obstacles : List String := []
  supportNeeded : List String := []
  affirmation : String := ""
  createdAt : String := ""
  updatedAt : String := ""
deriving DecidableEq

/-- One action slot of the OW64 chart (src/harada_tools.py lines 368-370). -/
structure ActionItem where
  id : String
  goalId : Int
  text : String
  completed : Bool
  completedAt : Option String := none
  isHabit : Bool := false
deriving DecidableEq

/-- One supporting-goal slot of the OW64 chart. -/
structure SupportingGoal where
  id : Int
  title : String
  actions : List ActionItem
deriving DecidableEq

/-- The `ow64.json` document. -/
structure Ow64 where
  northStar : String
  supportingGoals : List SupportingGoal
deriving DecidableEq

/-- A journal document `journal/{date}.json` as written by `write_journal`
(src/harada_tools.py lines 426-437); entries written by the system always
carry every field. -/
structure JournalEntry where
  date : String
  wentWell : List String := []
  didntGoWell : List String := []
  learnings : List String := []
  tomorrowFocus : List String := []
  mood : Int := 3
  energy : Int := 3
  notes : String := ""
  createdAt : String := ""
  updatedAt : String := ""
deriving DecidableEq

/-- The store contents the projections read: the goal form, the OW64 chart,
the habit list, the habit log (date → habit id → bool) and the journal
directory (date → entry).  A missing or corrupt document is `none` / empty
(`_read_json` returns `None`, callers default with `or []` / `or {}`). -/
structure Store where
  goalForm : Option GoalForm
  ow64 : Option Ow64
  habits : List Habit
  habitLog : List (String × List (String × Bool))
  journal : List (String × JournalEntry)

/-- Look a journal entry up by date (`_read_json(f"journal/{d}.json")`). -/
def journalLookup (j : List (String × JournalEntry)) (d : String) :
    Option JournalEntry :=
  (j.find? (fun p => p.1 == d)).map (·.2)

/- ════════════════════════════════════════════════════════════════
   Section 6: write_journal (src/harada_tools.py 415-448)
   ════════════════════════════════════════════════════════════════ -/

/-- The keyword arguments of `write_journal`; `none` models an omitted
argument (Python default `None`). -/
structure JournalArgs where
  went_well : Option (List String) := none
  didnt_go_well : Option (List String) := none
  learnings : Option (List String) := none
  tomorrow_focus : Option (List String) := none
  mood : Option Int := none
  energy : Option Int := none
  notes : Option String := none
deriving DecidableEq

/-- `write_journal(...)` (src/harada_tools.py lines 415-438): the entry
written for `today`, merging the supplied arguments over the existing entry
(`existing.get(field, default)`), with `createdAt` preserved from the
existing entry and `updatedAt` refreshed.  `today` and `now` stand for
`_today()` and `datetime.now().isoformat()`. -/
def write_journal (args : JournalArgs) (today now : String)
    (existing : Option JournalEntry) : JournalEntry :=
  { date := today
  , wentWell := args.went_well.getD (existing.elim [] (·.wentWell))
  , didntGoWell := args.didnt_go_well.getD (existing.elim [] (·.didntGoWell))
  , learnings := args.learnings.getD (existing.elim [] (·.learnings))
  , tomorrowFocus := args.tomorrow_focus.getD (existing.elim [] (·.tomorrowFocus))
  , mood := args.mood.getD (existing.elim 3 (·.mood))
  , energy := args.energy.getD (existing.elim 3 (·.energy))
  , notes := args.notes.getD (existing.elim "" (·.notes))
  , createdAt := existing.elim now (·.createdAt)
  , updatedAt := now }

/- ════════════════════════════════════════════════════════════════
   Section 7: complete_action (src/harada_tools.py 390-412)
   ════════════════════════════════════════════════════════════════ -/

/-- `len([a for a in actions if a.get("text")])`: actions with non-empty
text. -/
def countFilled (actions : List ActionItem) : Nat :=
  (actions.filter (fun a => a.text ≠ "")).length

/-- `sum(1 for a in actions if a.get("completed"))`: completed actions,
counted regardless of whether their text is empty. -/
def countCompleted (actions : List ActionItem) : Nat :=
  (actions.filter (·.completed)).length

/-- The action slot at 1-based `(g, a)` of a chart, as the source reads it:
`ow64["supportingGoals"][g-1]["actions"][a-1]`. -/
def actionAt (o : Ow64) (g a : Int) : Option ActionItem :=
  (o.supportingGoals.get? (g - 1).toNat).bind
    (fun goal => goal.actions.get? (a - 1).toNat)

/-- `complete_action(goal_number, action_number)` (src/harada_tools.py lines
390-412) on the stored chart: returns the reply string and the new stored
chart.  The outer `none` models a raised `IndexError` on a chart narrower
than 8×8 (which would propagate to the dispatcher); the range guards fire
before any indexing, exactly as in the source. -/
def complete_action (ow : Option Ow64) (goal_number action_number : Int)
    (now : String) : Option (String × Option Ow64) :=
  match ow with
  | none => some ("No OW64 chart set up.", none)
  | some chart =>
    if goal_number < 1 ∨ 8 < goal_number then
      some ("Goal number must be 1-8.", some chart)
    else if action_number < 1 ∨ 8 < action_number then
      some ("Action number must be 1-8.", some chart)
    else
      match chart.supportingGoals.get? (goal_number - 1).toNat with
      | none => none
      | some goal =>
        match goal.actions.get? (action_number - 1).toNat with
        | none => none
        | some action =>
          if action.text = "" then
            some ("Action " ++ toString goal_number ++ "-" ++
              toString action_number ++ " has no text defined.", some chart)
          else
            let action' := { action with completed := true, completedAt := some now }
            let goal' := { goal with
              actions := goal.actions.set (action_number - 1).toNat action' }
            let chart' := { chart with
              supportingGoals := chart.supportingGoals.set (goal_number - 1).toNat goal' }
            let done := countCompleted goal'.actions
            some ("Completed action " ++ toString goal_number ++ "-" ++
              toString action_number ++ ": '" ++ action.text ++ "'! That's " ++
              toString done ++ "/8 for goal '" ++ goal.title ++ "'.", some chart')

/- ════════════════════════════════════════════════════════════════
   Section 8: streak (src/harada_tools.py 221-231 and 703-712)
   ════════════════════════════════════════════════════════════════ -/

/-- Does day `d` qualify for the streak: every active habit is marked done in
the log for that day (`all(day_log.get(h["id"], False) for h in active)`),
where an absent date or habit id means "not done". -/
def dayQualifies (habit_log : List (String × List (String × Bool)))
    (active : List Habit) (d : String) : Bool :=
  active.all (fun h => lookupD (lookupD habit_log d []) h.id false)

/-- The walk of the streak loop: scan day indices `i, i+1, …` while they
qualify, up to `fuel` days, counting the qualifying prefix. -/
def streakGo (q : Nat → Bool) : Nat → Nat → Nat
  | 0, _ => 0
  | fuel + 1, i => if q i then streakGo q fuel (i + 1) + 1 else 0

/-- The streak computation shared verbatim by `get_progress`
(src/harada_tools.py lines 221-231) and `get_overlay_state` (lines 703-712):
0 when there are no active habits, else walk back from today
(`_days_ago(i)` for `i in range(365)`) and count the qualifying prefix. -/
def habitStreak (daysAgo : Nat → String)
    (habit_log : List (String × List (String × Bool)))
    (active : List Habit) : Nat :=
  if active.isEmpty then 0
  else streakGo (fun i => dayQualifies habit_log active (daysAgo i)) 365 0

/- ════════════════════════════════════════════════════════════════
   Section 9: OW64 completion blocks
   (src/harada_tools.py 233-247 and 714-727)
   ════════════════════════════════════════════════════════════════ -/

/-- One per-goal summary record of `get_progress` (the data rendered into
`"  Goal {id} '{title}': {done}/{total} ({pct}%)"`). -/
structure GoalSummary where
  gid : Int
  title : String
  done : Nat
  total : Nat
  pct : Int
deriving DecidableEq

/-- The loop body of the `get_progress` OW64 block (src/harada_tools.py lines
238-247): goals with an empty title are skipped entirely; `done` counts all
completed actions of the goal, `total` its non-empty-text actions. -/
def progressOw64Acc (acc : Nat × Nat × List GoalSummary) (g : SupportingGoal) :
    Nat × Nat × List GoalSummary :=
  if g.title = "" then acc
  else
    let done := countCompleted g.actions
    let total := countFilled g.actions
    let pct : Int := if 0 < total then pyRound ((done : ℚ) / (total : ℚ) * 100) else 0
    (acc.1 + done, acc.2.1 + total, acc.2.2 ++ [⟨g.id, g.title, done, total, pct⟩])

/-- The `get_progress` OW64 block (src/harada_tools.py lines 233-247):
`(ow64_done, ow64_total, goal_summaries)`. -/
def progress_ow64 (ow : Option Ow64) : Nat × Nat × List GoalSummary :=
  match ow with
  | none => (0, 0, [])
  | some o =>
    if o.supportingGoals.isEmpty then (0, 0, [])
    else o.supportingGoals.foldl progressOw64Acc (0, 0, [])

/-- One `goalProgress` record of the overlay (`{"id": …, "title": …,
"pct": …}`). -/
structure GoalPct where
  gid : Int
  title : String
  pct : Int
deriving DecidableEq

/-- The loop body of the `get_overlay_state` OW64 block (src/harada_tools.py
lines 719-727): every goal contributes its completed count and its
non-empty-text count to the totals; only goals with a title contribute a
`goalProgress` record. -/
def overlayOw64Acc (acc : Nat × Nat × List GoalPct) (g : SupportingGoal) :
    Nat × Nat × List GoalPct :=
  let filled := countFilled g.actions
  let done := countCompleted g.actions
  let newGp :=
    if g.title ≠ "" then
      acc.2.2 ++ [⟨g.id, g.title,
        if 0 < filled then pyRound ((done : ℚ) / (filled : ℚ) * 100) else 0⟩]
    else acc.2.2
  (acc.1 + done, acc.2.1 + filled, newGp)

/-- The `get_overlay_state` OW64 block (src/harada_tools.py lines 714-727):
`(ow64_done, ow64_total, goal_progress)`. -/
def overlay_ow64 (ow : Option Ow64) : Nat × Nat × List GoalPct :=
  match ow with
  | none => (0, 0, [])
  | some o =>
    if o.supportingGoals.isEmpty then (0, 0, [])
    else o.supportingGoals.foldl overlayOw64Acc (0, 0, [])

/- ════════════════════════════════════════════════════════════════
   Section 10: mood/energy averages and the overlay snapshot
   (src/harada_tools.py 684-781)
   ════════════════════════════════════════════════════════════════ -/

/-- The moods collected by `get_overlay_state` (src/harada_tools.py lines
730-738): for the last 30 calendar days, the `mood` of the day's entry when
the entry exists and its mood is truthy (`if entry.get("mood")`), i.e.
non-zero. -/
def overlayMoods (journal : List (String × JournalEntry))
    (daysAgo : Nat → String) : List Int :=
  (List.range 30).filterMap (fun i =>
    match journalLookup journal (daysAgo i) with
    | none => none
    | some e => if e.mood ≠ 0 then some e.mood else none)

/-- The energies collected by `get_overlay_state` (src/harada_tools.py lines
730-740), under the same truthiness test. -/
def overlayEnergies (journal : List (String × JournalEntry))
    (daysAgo : Nat → String) : List Int :=
  (List.range 30).filterMap (fun i =>
    match journalLookup journal (daysAgo i) with
    | none => none
    | some e => if e.energy ≠ 0 then some e.energy else none)

/-- One overlay conversation turn (`{"role": …, "text": …}`). -/
structure ConvTurn where
  role : String
  text : String
deriving DecidableEq

/-- The `dashboard` object of the overlay state (src/harada_tools.py lines
762-780). -/
structure Dashboard where
  northStar : String
  affirmation : String
  daysSinceStart : Int
  daysRemaining : Int
  habits : List (List Char × Bool)
  habitsCompleted : Nat
  habitsTotal : Nat
  streak : Nat
  ow64Completion : Int
  ow64Done : Nat
  ow64Total : Nat
  goalProgress : List GoalPct
  avgMood : Option ℚ
  avgEnergy : Option ℚ
deriving DecidableEq

/-- The overlay state document (src/harada_tools.py lines 759-781). -/
structure Overlay where
  timestamp : String
  conversation : List ConvTurn
  dashboard : Dashboard
deriving DecidableEq

/-- `get_overlay_state(conversation_history)` (src/harada_tools.py lines
684-781).  `today`, `daysAgo` and `nowIso` stand for `_today()`, `_days_ago`
and `datetime.now().isoformat()`; `createdDays s` and `deadlineDays s` are
the day differences `(datetime.now() - fromisoformat(s[:10])).days` and
`(fromisoformat(s) - datetime.now()).days`, `none` modelling a `ValueError`
(in which case the source keeps the defaults 0 and -1). -/
def get_overlay_state (store : Store) (today : String) (daysAgo : Nat → String)
    (createdDays deadlineDays : String → Option Int) (nowIso : String)
    (conversation_history : Option (List ConvTurn)) : Overlay :=
  let today_log := lookupD store.habitLog today []
  let active_habits := store.habits.filter (·.active)
  let habits_completed :=
    (active_habits.filter (fun h => lookupD today_log h.id false)).length
  let streak := habitStreak daysAgo store.habitLog active_habits
  let ow := overlay_ow64 store.ow64
  let moods := overlayMoods store.journal daysAgo
  let energies := overlayEnergies store.journal daysAgo
  let days_since_start : Int :=
    match store.goalForm with
    | none => 0
    | some gf => if gf.createdAt ≠ "" then (createdDays gf.createdAt).getD 0 else 0
  let days_remaining : Int :=
    match store.goalForm with
    | none => -1
    | some gf => if gf.deadline ≠ "" then (deadlineDays gf.deadline).getD (-1) else -1
  { timestamp := nowIso
  , conversation := conversation_history.getD []
  , dashboard :=
    { northStar := match store.goalForm with | some gf => gf.northStar | none => ""
    , affirmation := match store.goalForm with | some gf => gf.affirmation | none => ""
    , daysSinceStart := days_since_start
    , daysRemaining := days_remaining
    , habits := active_habits.map (fun h => (h.name, lookupD today_log h.id false))
    , habitsCompleted := habits_completed
    , habitsTotal := active_habits.length
    , streak := streak
    , ow64Completion :=
        if 0 < ow.2.1 then pyRound ((ow.1 : ℚ) / (ow.2.1 : ℚ) * 100) else 0
    , ow64Done := ow.1
    , ow64Total := ow.2.1
    , goalProgress := ow.2.2
    , avgMood :=
        if moods.isEmpty then none
        else some (pyRound1 ((moods.sum : ℚ) / (moods.length : ℚ)))
    , avgEnergy :=
        if energies.isEmpty then none
        else some (pyRound1 ((energies.sum : ℚ) / (energies.length : ℚ))) } }

/- ════════════════════════════════════════════════════════════════
   Section 11: get_progress (src/harada_tools.py 205-291)
   ════════════════════════════════════════════════════════════════ -/

/-- The rendering of one per-goal summary line of `get_progress`
(src/harada_tools.py line 247). -/
def goalSummaryLine (gs : GoalSummary) : String :=
  "  Goal " ++ toString gs.gid ++ " '" ++ gs.title ++ "': " ++
    toString gs.done ++ "/" ++ toString gs.total ++ " (" ++ toString gs.pct ++ "%)"

/-- `get_progress()` (src/harada_tools.py lines 205-291), assembled from the
streak and OW64 blocks above.  `deadlineDays` and `createdDays` are the
`datetime` oracles as in `get_overlay_state`; `store.journal.length` is the
journal-directory file count. -/
def get_progress (store : Store) (today : String) (daysAgo : Nat → String)
    (deadlineDays createdDays : String → Option Int) : String :=
  match store.goalForm with
  | none => "No Harada goal set up yet. Let's start by defining your north star goal!"
  | some goal_form =>
    let today_log := lookupD store.habitLog today []
    let active_habits := store.habits.filter (·.active)
    let habits_done :=
      (active_habits.filter (fun h => lookupD today_log h.id false)).length
    let habits_total := active_habits.length
    let streak := habitStreak daysAgo store.habitLog active_habits
    let ow := progress_ow64 store.ow64
    let days_info :=
      (if goal_form.deadline ≠ "" then
        match deadlineDays goal_form.deadline with
        | some d => if 0 < d then toString d ++ " days remaining to deadline. " else ""
        | none => ""
      else "") ++
      (if goal_form.createdAt ≠ "" then
        match createdDays goal_form.createdAt with
        | some n => "Day " ++ toString n ++ " of your journey."
        | none => ""
      else "")
    let journal_count := store.journal.length
    let parts : List String :=
      [ "North star: " ++ goal_form.northStar ++ "."
      , days_info
      , "Today's habits: " ++ toString habits_done ++ "/" ++
          toString habits_total ++ " done." ]
    let parts := if 0 < streak then
        parts ++ ["Current streak: " ++ toString streak ++ " days."]
      else parts
    let parts := if 0 < ow.2.1 then
        parts ++ ["OW64 progress: " ++ toString ow.1 ++ "/" ++ toString ow.2.1 ++
          " actions completed (" ++
          toString (pyRound ((ow.1 : ℚ) / (ow.2.1 : ℚ) * 100)) ++ "%)."]
      else parts
    let parts := if ow.2.2.isEmpty then parts
      else parts ++ ["By goal:\n" ++
        String.intercalate "\n" (ow.2.2.map goalSummaryLine)]
    let parts := if 0 < journal_count then
        parts ++ ["Journal entries: " ++ toString journal_count ++ " total."]
      else parts
    let parts := if goal_form.affirmation ≠ "" then
        parts ++ ["Your affirmation: " ++ goal_form.affirmation]
      else parts
    String.intercalate "\n" parts

/- ════════════════════════════════════════════════════════════════
   Section 12: spec-side formulas and concrete example inputs
   ════════════════════════════════════════════════════════════════ -/

/-- The OW64 `done` count as the specification words it: actions across all
slots whose text is non-empty AND which are completed. -/
def specOw64Done (o : Ow64) : Nat :=
  (o.supportingGoals.map
    (fun g => (g.actions.filter (fun a => a.text ≠ "" && a.completed)).length)).sum

/-- The OW64 `total` count as the specification words it: actions across all
slots whose text is non-empty. -/
def specOw64Total (o : Ow64) : Nat :=
  (o.supportingGoals.map (fun g => countFilled g.actions)).sum

/-- The OW64 percentage as the specification words it:
`round(done/total × 100)`, 0 when `total` is 0. -/
def specOw64Pct (o : Ow64) : Int :=
  if 0 < specOw64Total o then
    pyRound ((specOw64Done o : ℚ) / (specOw64Total o : ℚ) * 100)
  else 0

/-- The mood values of the last 30 days' entries as the claim words them:
every present (non-null) `mood` of an existing entry, zero or not. -/
def specMoodVals (journal : List (String × JournalEntry))
    (daysAgo : Nat → String) : List Int :=
  (List.range 30).filterMap (fun i => (journalLookup journal (daysAgo i)).map (·.mood))

/-- The rolling mood average as the claim words it: the plain mean of
`specMoodVals`, absent when there are none. -/
def specAvgMood (journal : List (String × JournalEntry))
    (daysAgo : Nat → String) : Option ℚ :=
  let vals := specMoodVals journal daysAgo
  if vals.isEmpty then none
  else some ((vals.sum : ℚ) / (vals.length : ℚ))

/-- The mood values the overlay actually keeps: present and non-zero
(truthy), phrased independently of the collection loop. -/
def truthyMoodVals (journal : List (String × JournalEntry))
    (daysAgo : Nat → String) : List Int :=
  (List.range 30).filterMap (fun i =>
    (journalLookup journal (daysAgo i)).bind
      (fun e => if e.mood ≠ 0 then some e.mood else none))

/-- The energy values the overlay actually keeps: present and non-zero. -/
def truthyEnergyVals (journal : List (String × JournalEntry))
    (daysAgo : Nat → String) : List Int :=
  (List.range 30).filterMap (fun i =>
    (journalLookup journal (daysAgo i)).bind
      (fun e => if e.energy ≠ 0 then some e.energy else none))

/-- Eight empty action slots for goal `g`, as `setup_supporting_goal` creates
them (src/harada_tools.py lines 364-372). -/
def emptyActions (g : Int) : List ActionItem :=
  (List.range 8).map (fun j =>
    { id := toString g ++ "-" ++ toString (j + 1), goalId := g
    , text := "", completed := false })

/-- Example chart for the OW64 counterexample: goal 1 is titled and holds a
completed action with EMPTY text plus an uncompleted action with text; goal 2
is untitled but holds an action with text. -/
def cx4Goal1 : SupportingGoal :=
  { id := 1, title := "t"
  , actions :=
      ((emptyActions 1).set 0
        { id := "1-1", goalId := 1, text := "", completed := true
        , completedAt := some "T" }).set 1
        { id := "1-2", goalId := 1, text := "x", completed := false } }

/-- Untitled goal 2 of the OW64 counterexample, with one filled action. -/
def cx4Goal2 : SupportingGoal :=
  { id := 2, title := ""
  , actions := (emptyActions 2).set 0
      { id := "2-1", goalId := 2, text := "y", completed := false } }

/-- The full 8×8 counterexample chart. -/
def cx4Chart : Ow64 :=
  { northStar := "NS"
  , supportingGoals := [cx4Goal1, cx4Goal2] ++
      (List.range 6).map (fun k =>
        { id := (k : Int) + 3, title := "", actions := emptyActions ((k : Int) + 3) }) }

/-- Store holding only the counterexample chart. -/
def cx4Store : Store :=
  { goalForm := none, ow64 := some cx4Chart, habits := [], habitLog := [], journal := [] }

/-- Example chart for the spec's worked example: one titled goal, 6 actions
with text of which the first 3 are completed. -/
def exSixActions : List ActionItem :=
  (List.range 8).map (fun j =>
    { id := "1-" ++ toString (j + 1), goalId := 1
    , text := if j < 6 then "a" ++ toString (j + 1) else ""
    , completed := decide (j < 3) })

/-- The 3-completed-of-6-filled example chart. -/
def exSixChart : Ow64 :=
  { northStar := "NS", supportingGoals := [{ id := 1, title := "Build endurance", actions := exSixActions }] }

/-- Store holding the 3-of-6 example chart. -/
def exSixStore : Store :=
  { goalForm := none, ow64 := some exSixChart, habits := [], habitLog := [], journal := [] }

/-- A chart whose only titled goal has no action texts at all (0 non-empty
actions). -/
def exEmptyChart : Ow64 :=
  { northStar := "NS", supportingGoals := [{ id := 1, title := "t", actions := emptyActions 1 }] }

/-- Journal entry with a stored (out-of-range) mood of 0. -/
def cx9Entry0 : JournalEntry :=
  { date := "d0", mood := 0, energy := 1, createdAt := "c", updatedAt := "c" }

/-- Journal entry with mood 4. -/
def cx9Entry1 : JournalEntry :=
  { date := "d1", mood := 4, energy := 1, createdAt := "c", updatedAt := "c" }

/-- Two-day journal for the rolling-average counterexample. -/
def cx9Journal : List (String × JournalEntry) := [("d0", cx9Entry0), ("d1", cx9Entry1)]

/-- Store holding only the counterexample journal. -/
def cx9Store : Store :=
  { goalForm := none, ow64 := none, habits := [], habitLog := [], journal := cx9Journal }

/-- Concrete date naming for the examples: day `i` ago is `"d{i}"`. -/
def exDaysAgo : Nat → String := fun i => "d" ++ toString i

/-- Example provider whose response carries BOTH tool calls and
`finish_reason="stop"`. -/
def exStopProvider : List ChatMessage → Choice := fun _ =>
  { message :=
    { role := "assistant", content := some "All done!"
    , tool_calls := [{ id := "call-1", name := "get_progress", arguments := some [] }] }
  , finish_reason := some "stop" }

/-- Example provider that always requests one more tool call and never
finishes. -/
def exLoopProvider : List ChatMessage → Choice := fun _ =>
  { message :=
    { role := "assistant", content := none
    , tool_calls := [{ id := "call-2", name := "list_habits", arguments := some [] }] }
  , finish_reason := some "tool_calls" }

/-- Example provider whose choice has tool calls but NO `finish_reason` key. -/
def exNoFinishProvider : List ChatMessage → Choice := fun _ =>
  { message :=
    { role := "assistant", content := some "Hi there"
    , tool_calls := [{ id := "call-3", name := "get_goals", arguments := none }] }
  , finish_reason := none }

/-- Example tool executor. -/
def exExecutor : String → List (String × String) → String := fun _ _ => "ok"

/-- Example dispatcher registry with one well-behaved and one raising
handler. -/
def exRegistry : List (String × ToolHandler) :=
  [ ("good_tool", fun _ => Except.ok "done")
  , ("bad_tool", fun _ => Except.error "boom") ]

/-- Example habit for the streak witness. -/
def exHabitA : Habit := { id := "h-a", name := "Run".toList }

/-- Habit added today, present in no day of the log. -/
def exHabitNew : Habit := { id := "h-new", name := "Stretch".toList }

/-- A log in which `h-a` is done on days 0 and 1 but not day 2. -/
def exLog3 : List (String × List (String × Bool)) :=
  [("d0", [("h-a", true)]), ("d1", [("h-a", true)]), ("d2", [("h-a", false)])]

/-- Example candidates for the fuzzy-match witness. -/
def exCands : List Habit :=
  [ { id := "id-0", name := "Exercise".toList }
  , { id := "id-1", name := "Study ML papers".toList } ]

/-- Example chart for the complete_action witness: goal 1 titled, its first
action has text "Run", everything else empty. -/
def exC8Chart : Ow64 :=
  { northStar := "NS"
  , supportingGoals := (List.range 8).map (fun i =>
      { id := (i : Int) + 1
      , title := if i = 0 then "G1" else ""
      , actions :=
          if i = 0 then
            (emptyActions 1).set 0
              { id := "1-1", goalId := 1, text := "Run", completed := false }
          else emptyActions ((i : Int) + 1) }) }

/-- The in-place mutation of src/harada_tools.py lines 407-408: set
`completed` and stamp `completedAt`. -/
def markDone (x : ActionItem) (now : String) : ActionItem :=
  { x with completed := true, completedAt := some now }

/-- Replace one action slot of a goal. -/
def goalSetDone (gl : SupportingGoal) (ai : Nat) (x : ActionItem) : SupportingGoal :=
  { gl with actions := gl.actions.set ai x }

/-- Replace one supporting-goal slot of a chart. -/
def chartSetGoal (chart : Ow64) (gi : Nat) (gl : SupportingGoal) : Ow64 :=
  { chart with supportingGoals := chart.supportingGoals.set gi gl }

/-- Store holding the 0-filled-actions example chart. -/
def exEmptyStore : Store :=
  { goalForm := none, ow64 := some exEmptyChart, habits := [], habitLog := [], journal := [] }

/- ════════════════════════════════════════════════════════════════
   Section 13: helper lemmas
   ════════════════════════════════════════════════════════════════ -/

/-- Unfolding of the loop at zero fuel. -/
theorem chatGo_zero (provider : List ChatMessage → Choice)
    (executor : String → List (String × String) → String)
    (working : List ChatMessage)
    (acc : List (String × List (String × String))) (calls : Nat)
    (last : ChatMessage) :
    chatGo provider executor 0 working acc calls last =
      ⟨last.content.getD fallbackText, acc, calls⟩ := by
  rw [chatGo]

/-- Unfolding of the loop on a final response. -/
theorem chatGo_succ_final (provider : List ChatMessage → Choice)
    (executor : String → List (String × String) → String)
    (fuel : Nat) (working : List ChatMessage)
    (acc : List (String × List (String × String))) (calls : Nat)
    (last : ChatMessage) (h : isFinalChoice (provider working) = true) :
    chatGo provider executor (fuel + 1) working acc calls last =
      ⟨(provider working).message.content.getD "", acc, calls + 1⟩ := by
  rw [chatGo]
  simp [h]

/-- Unfolding of the loop on a non-final response: execute the tool calls
and recurse. -/
theorem chatGo_succ_nonfinal (provider : List ChatMessage → Choice)
    (executor : String → List (String × String) → String)
    (fuel : Nat) (working : List ChatMessage)
    (acc : List (String × List (String × String))) (calls : Nat)
    (last : ChatMessage) (h : isFinalChoice (provider working) = false) :
    chatGo provider executor (fuel + 1) working acc calls last =
      chatGo provider executor fuel
        (working ++ (provider working).message ::
          (provider working).message.tool_calls.map (toolResultMessage executor))
        (acc ++ (provider working).message.tool_calls.map
          (fun tc => (tc.name, tc.arguments.getD [])))
        (calls + 1) (provider working).message := by
  rw [chatGo]
  simp [h]

/-- The number of provider calls made by the loop is bounded by the fuel. -/
theorem chatGo_calls_le (provider : List ChatMessage → Choice)
    (executor : String → List (String × String) → String) :
    ∀ (fuel : Nat) (working : List ChatMessage)
      (acc : List (String × List (String × String))) (calls : Nat)
      (last : ChatMessage),
      (chatGo provider executor fuel working acc calls last).calls ≤ calls + fuel := by
  intro fuel
  induction fuel with
  | zero => intro working acc calls last; simp [chatGo_zero]
  | succ n ih =>
    intro working acc calls last
    by_cases hf : isFinalChoice (provider working) = true
    · rw [chatGo_succ_final provider executor n working acc calls last hf]
      simp
    · rw [chatGo_succ_nonfinal provider executor n working acc calls last
        (by simpa using hf)]
      have h := ih (working ++ (provider working).message ::
        (provider working).message.tool_calls.map (toolResultMessage executor))
        (acc ++ (provider working).message.tool_calls.map
          (fun tc => (tc.name, tc.arguments.getD []))) (calls + 1)
        (provider working).message
      omega

/-- When every provider response is non-final, the loop spends all its fuel
and ends returning some provider message's content with the fallback
default. -/
theorem chatGo_nonfinal (provider : List ChatMessage → Choice)
    (executor : String → List (String × String) → String)
    (hnf : ∀ w, isFinalChoice (provider w) = false) :
    ∀ (fuel : Nat) (working : List ChatMessage)
      (acc : List (String × List (String × String))) (calls : Nat)
      (last : ChatMessage),
      ∃ m ex, (∃ w, (provider w).message = m) ∧
        chatGo provider executor (fuel + 1) working acc calls last =
          ⟨m.content.getD fallbackText, ex, calls + fuel + 1⟩ := by
  intro fuel
  induction fuel with
  | zero =>
    intro working acc calls last
    refine ⟨(provider working).message,
      acc ++ (provider working).message.tool_calls.map
        (fun tc => (tc.name, tc.arguments.getD [])),
      ⟨working, rfl⟩, ?_⟩
    rw [chatGo_succ_nonfinal provider executor 0 working acc calls last (hnf working)]
    rw [chatGo_zero]
  | succ n ih =>
    intro working acc calls last
    obtain ⟨m, ex, hw, heq⟩ := ih
      (working ++ (provider working).message ::
        (provider working).message.tool_calls.map (toolResultMessage executor))
      (acc ++ (provider working).message.tool_calls.map
        (fun tc => (tc.name, tc.arguments.getD []))) (calls + 1)
      (provider working).message
    refine ⟨m, ex, hw, ?_⟩
    rw [chatGo_succ_nonfinal provider executor (n + 1) working acc calls last (hnf working)]
    rw [heq]
    congr 1
    omega

/- ════════════════════════════════════════════════════════════════
   Section 14: claim theorems
   ════════════════════════════════════════════════════════════════ -/

/-- C1: in `chat_with_tools`, a provider response whose `finish_reason` is
`"stop"` is final: its content is returned and none of its tool calls is
executed (the executed list does not grow past `acc`), even when
`tool_calls` is non-empty; a response with no tool calls is likewise final.
The last conjunct specialises this to the first round of a fresh
`chat_with_tools` exchange: no tool call at all is executed. -/
theorem stop_finish_is_final (provider : List ChatMessage → Choice)
    (executor : String → List (String × String) → String)
    (fuel : Nat) (working : List ChatMessage)
    (acc : List (String × List (String × String))) (calls : Nat)
    (last : ChatMessage) :
    ((provider working).finish_reason = some "stop" →
      chatGo provider executor (fuel + 1) working acc calls last =
        ⟨(provider working).message.content.getD "", acc, calls + 1⟩) ∧
    ((provider working).message.tool_calls = [] →
      chatGo provider executor (fuel + 1) working acc calls last =
        ⟨(provider working).message.content.getD "", acc, calls + 1⟩) ∧
    (∀ sp msgs,
      (provider ({ role := "system", content := some sp } :: msgs)).finish_reason = some "stop" →
      chat_with_tools provider executor sp msgs =
        ⟨(provider ({ role := "system", content := some sp } :: msgs)).message.content.getD "",
          [], 1⟩) := by
  have key : ∀ (w : List ChatMessage) acc' calls' last' f,
      isFinalChoice (provider w) = true →
      chatGo provider executor (f + 1) w acc' calls' last' =
        ⟨(provider w).message.content.getD "", acc', calls' + 1⟩ := by
    intro w acc' calls' last' f hf
    rw [chatGo]
    simp only [hf, if_pos]
  refine ⟨?_, ?_, ?_⟩
  · intro h
    exact key _ _ _ _ _ (by simp [isFinalChoice, h])
  · intro h
    exact key _ _ _ _ _ (by simp [isFinalChoice, h])
  · intro sp msgs h
    exact key _ _ _ _ 9 (by simp [isFinalChoice, h])

/-- C1 witness: a concrete provider answering with `finish_reason="stop"`
AND a pending tool call; the engine returns the text and executes nothing in
one provider call. -/
theorem stop_finish_is_final_witness :
    chat_with_tools exStopProvider exExecutor "sys" [] = ⟨"All done!", [], 1⟩ :=
  (stop_finish_is_final exStopProvider exExecutor 9
      ({ role := "system", content := some "sys" } :: []) [] 0
      { role := "assistant", content := none }).2.2 "sys" [] rfl

/-- C2: the protocol engine always terminates within the configured round
budget (`MAX_TOOL_ROUNDS = 10` provider calls); if every response is
non-final (always more tool calls), exactly 10 calls are made and the final
answer is the last provider message's content when present, else the generic
fallback apology — an answer string is always produced (the return type is
`String`), and budget exhaustion is not an error. -/
theorem round_budget_exhaustion (provider : List ChatMessage → Choice)
    (executor : String → List (String × String) → String)
    (sp : String) (msgs : List ChatMessage) :
    (chat_with_tools provider executor sp msgs).calls ≤ MAX_TOOL_ROUNDS ∧
    ((∀ w, isFinalChoice (provider w) = false) →
      (chat_with_tools provider executor sp msgs).calls = MAX_TOOL_ROUNDS ∧
      ∃ m, (∃ w, (provider w).message = m) ∧
        (chat_with_tools provider executor sp msgs).answer = m.content.getD fallbackText) := by
  constructor
  · have h := chatGo_calls_le provider executor MAX_TOOL_ROUNDS
      ({ role := "system", content := some sp } :: msgs) [] 0
      { role := "assistant", content := none }
    simpa [chat_with_tools] using h
  · intro hnf
    obtain ⟨m, ex, hw, heq⟩ := chatGo_nonfinal provider executor hnf 9
      ({ role := "system", content := some sp } :: msgs) [] 0
      { role := "assistant", content := none }
    have : chat_with_tools provider executor sp msgs =
        ⟨m.content.getD fallbackText, ex, 0 + 9 + 1⟩ := heq
    rw [this]
    exact ⟨rfl, m, hw, rfl⟩

/-- C2 witness: a provider that always requests another tool call; the
exchange makes exactly 10 provider calls and, the last message having no
content, returns the fallback apology. -/
theorem round_budget_exhaustion_witness :
    (chat_with_tools exLoopProvider exExecutor "sys" []).calls = MAX_TOOL_ROUNDS ∧
    (chat_with_tools exLoopProvider exExecutor "sys" []).answer = fallbackText := by
  have hnf : ∀ w, isFinalChoice (exLoopProvider w) = false := fun _ => rfl
  have h := (round_budget_exhaustion exLoopProvider exExecutor "sys" []).2 hnf
  obtain ⟨hc, m, ⟨w, hw⟩, ha⟩ := h
  refine ⟨hc, ?_⟩
  rw [ha, ← hw]
  rfl

/-- C3: `execute_tool` is a total `String`-valued function (never raises):
an unknown name yields the literal `"Unknown tool: {name}"` string, a
handler that returns yields its result, and a handler that raises is caught
and converted to `"Tool error ({name}): {message}"`. -/
theorem execute_tool_never_raises (registry : List (String × ToolHandler))
    (name : String) (arguments : List (String × String)) :
    (findTool registry name = none →
      execute_tool registry name arguments = "Unknown tool: " ++ name) ∧
    (∀ f, findTool registry name = some f →
      (∀ s, f arguments = Except.ok s →
        execute_tool registry name arguments = s) ∧
      (∀ msg, f arguments = Except.error msg →
        execute_tool registry name arguments = "Tool error (" ++ name ++ "): " ++ msg)) := by
  refine ⟨fun h => ?_, fun f hf => ⟨fun s hs => ?_, fun msg hm => ?_⟩⟩
  · simp [execute_tool, h]
  · simp [execute_tool, hf, hs]
  · simp [execute_tool, hf, hm]

/-- C3 witness: on a concrete registry, an unknown name, a raising handler
and a well-behaved handler each produce the advertised strings. -/
theorem execute_tool_never_raises_witness :
    execute_tool exRegistry "nope" [] = "Unknown tool: nope" ∧
    execute_tool exRegistry "bad_tool" [] = "Tool error (bad_tool): boom" ∧
    execute_tool exRegistry "good_tool" [] = "done" := by
  refine ⟨(execute_tool_never_raises exRegistry "nope" []).1 rfl, ?_, ?_⟩
  · exact ((execute_tool_never_raises exRegistry "bad_tool" []).2
      (fun _ => Except.error "boom") rfl).2 "boom" rfl
  · exact ((execute_tool_never_raises exRegistry "good_tool" []).2
      (fun _ => Except.ok "done") rfl).1 "done" rfl

/-- C10: a provider choice with NO `finish_reason` key defaults to `"stop"`
(`choice.get("finish_reason", "stop")`): even with tool calls present, no
tool is executed and the content is returned immediately; the last conjunct
specialises to the first round of a fresh exchange. -/
theorem absent_finish_reason_is_stop (provider : List ChatMessage → Choice)
    (executor : String → List (String × String) → String)
    (fuel : Nat) (working : List ChatMessage)
    (acc : List (String × List (String × String))) (calls : Nat)
    (last : ChatMessage) :
    ((provider working).finish_reason = none →
      chatGo provider executor (fuel + 1) working acc calls last =
        ⟨(provider working).message.content.getD "", acc, calls + 1⟩) ∧
    (∀ sp msgs,
      (provider ({ role := "system", content := some sp } :: msgs)).finish_reason = none →
      chat_with_tools provider executor sp msgs =
        ⟨(provider ({ role := "system", content := some sp } :: msgs)).message.content.getD "",
          [], 1⟩) := by
  have key : ∀ (w : List ChatMessage) acc' calls' last' f,
      (provider w).finish_reason = none →
      chatGo provider executor (f + 1) w acc' calls' last' =
        ⟨(provider w).message.content.getD "", acc', calls' + 1⟩ := by
    intro w acc' calls' last' f hf
    rw [chatGo]
    simp [isFinalChoice, hf]
  exact ⟨fun h => key _ _ _ _ fuel h, fun sp msgs h => key _ _ _ _ 9 h⟩

/-- C10 witness: a concrete response with tool calls and no `finish_reason`
is returned as final with nothing executed. -/
theorem absent_finish_reason_is_stop_witness :
    chat_with_tools exNoFinishProvider exExecutor "sys" [] = ⟨"Hi there", [], 1⟩ :=
  (absent_finish_reason_is_stop exNoFinishProvider exExecutor 9
      ({ role := "system", content := some "sys" } :: []) [] 0
      { role := "assistant", content := none }).2 "sys" [] rfl

/-- C7: `write_journal` has merge semantics.  For each field: an explicitly
passed value (including an empty list) overwrites, an omitted field keeps
the stored value, mood and energy default to 3 with no prior entry,
`createdAt` is set on the first write and preserved afterwards, and two
same-day calls with disjoint field sets merge both (here: the second call
with every field omitted keeps all of the first call's values, and any field
it does pass overwrites only that field). -/
theorem write_journal_merge (a a2 : JournalArgs) (today now now2 : String)
    (ex : Option JournalEntry) :
    ((∀ v, a.went_well = some v → (write_journal a today now ex).wentWell = v) ∧
     (a.went_well = none →
       (write_journal a today now ex).wentWell = ex.elim [] (·.wentWell)) ∧
     (∀ v, a.mood = some v → (write_journal a today now ex).mood = v) ∧
     (a.mood = none → (write_journal a today now ex).mood = ex.elim 3 (·.mood)) ∧
     (∀ v, a.energy = some v → (write_journal a today now ex).energy = v) ∧
     (a.energy = none → (write_journal a today now ex).energy = ex.elim 3 (·.energy)) ∧
     (∀ v, a.notes = some v → (write_journal a today now ex).notes = v) ∧
     (a.notes = none → (write_journal a today now ex).notes = ex.elim "" (·.notes)) ∧
     (write_journal a today now ex).createdAt = ex.elim now (·.createdAt) ∧
     (write_journal a today now ex).updatedAt = now ∧
     (write_journal a today now ex).date = today) ∧
    (let e1 := write_journal a today now none
     let e2 := write_journal a2 today now2 (some e1)
     e2.createdAt = now ∧
     (a2.went_well = none → e2.wentWell = e1.wentWell) ∧
     (∀ v, a2.went_well = some v → e2.wentWell = v) ∧
     (a2.didnt_go_well = none → e2.didntGoWell = e1.didntGoWell) ∧
     (a2.learnings = none → e2.learnings = e1.learnings) ∧
     (a2.tomorrow_focus = none → e2.tomorrowFocus = e1.tomorrowFocus) ∧
     (a2.mood = none → e2.mood = e1.mood) ∧
     (a2.energy = none → e2.energy = e1.energy) ∧
     (a2.notes = none → e2.notes = e1.notes)) := by
  refine ⟨⟨?_, ?_, ?_, ?_, ?_, ?_, ?_, ?_, rfl, rfl, rfl⟩,
    rfl, ?_, ?_, ?_, ?_, ?_, ?_, ?_, ?_⟩ <;>
    first
      | (intro v h; simp [write_journal, h])
      | (intro h; simp [write_journal, h])

/-- C7 witness: a first write with only `went_well` and a second same-day
write with only `mood = 5` merge into an entry with both, keeping the first
call's `createdAt`. -/
theorem write_journal_merge_witness :
    (write_journal { mood := some 5 } "2026-01-02" "t2"
        (some (write_journal { went_well := some ["win"] } "2026-01-02" "t1" none))).wentWell
        = ["win"] ∧
    (write_journal { mood := some 5 } "2026-01-02" "t2"
        (some (write_journal { went_well := some ["win"] } "2026-01-02" "t1" none))).mood = 5 ∧
    (write_journal { mood := some 5 } "2026-01-02" "t2"
        (some (write_journal { went_well := some ["win"] } "2026-01-02" "t1" none))).createdAt = "t1" ∧
    (write_journal { went_well := some ["win"] } "2026-01-02" "t1" none).mood = 3 := by
  have h := write_journal_merge { went_well := some ["win"] } { mood := some 5 }
    "2026-01-02" "t1" "t2" none
  refine ⟨h.2.2.1 rfl, ?_, h.2.1, (write_journal_merge { went_well := some ["win"] }
    { mood := some 5 } "2026-01-02" "t1" "t2" none).1.2.2.2.1 rfl⟩
  exact (write_journal_merge { mood := some 5 } { mood := some 5 } "2026-01-02" "t2" "t2"
    (some (write_journal { went_well := some ["win"] } "2026-01-02" "t1" none))).1.2.2.1 5 rfl

/-- C8: `complete_action` on an existing chart: an out-of-range goal or
action number yields the corresponding "must be 1-8" message leaving the
store unchanged; for in-range numbers, an action with empty text cannot be
completed ("no text defined", store unchanged), and an action with non-empty
text is marked completed with `completedAt` stamped, all other slots
untouched, and the call is idempotent: repeating it returns the same message
and the same store. -/
theorem complete_action_spec (chart : Ow64) (g a : Int) (now : String) :
    ((g < 1 ∨ 8 < g) → complete_action (some chart) g a now =
      some ("Goal number must be 1-8.", some chart)) ∧
    (1 ≤ g → g ≤ 8 → (a < 1 ∨ 8 < a) → complete_action (some chart) g a now =
      some ("Action number must be 1-8.", some chart)) ∧
    (∀ act, 1 ≤ g → g ≤ 8 → 1 ≤ a → a ≤ 8 →
      actionAt chart g a = some act → act.text = "" →
      complete_action (some chart) g a now =
        some ("Action " ++ toString g ++ "-" ++ toString a ++
          " has no text defined.", some chart)) ∧
    (∀ act, 1 ≤ g → g ≤ 8 → 1 ≤ a → a ≤ 8 →
      actionAt chart g a = some act → act.text ≠ "" →
      ∃ msg chart',
        complete_action (some chart) g a now = some (msg, some chart') ∧
        actionAt chart' g a =
          some { act with completed := true, completedAt := some now } ∧
        (∀ g2 a2, 1 ≤ g2 → g2 ≤ 8 → 1 ≤ a2 → a2 ≤ 8 → ¬(g2 = g ∧ a2 = a) →
          actionAt chart' g2 a2 = actionAt chart g2 a2) ∧
        complete_action (some chart') g a now = some (msg, some chart')) := by
  refine ⟨?_, ?_, ?_, ?_⟩
  · intro h
    simp only [complete_action]
    rw [if_pos h]
  · intro hg1 hg2 h
    simp only [complete_action]
    rw [if_neg (by omega), if_pos h]
  · intro act hg1 hg2 ha1 ha2 hat htext
    simp only [actionAt] at hat
    rcases Option.bind_eq_some.mp hat with ⟨goalRec, hgoal, hact⟩
    have hr1 : ¬(g < 1 ∨ 8 < g) := by omega
    have hr2 : ¬(a < 1 ∨ 8 < a) := by omega
    have hG : chart.supportingGoals[g.toNat - 1]? = some goalRec := by
      rw [← Int.pred_toNat, ← List.get?_eq_getElem?]
      exact hgoal
    have hA : goalRec.actions[a.toNat - 1]? = some act := by
      rw [← Int.pred_toNat, ← List.get?_eq_getElem?]
      exact hact
    simp [complete_action, hr1, hr2, hG, hA, htext]
  · intro act hg1 hg2 ha1 ha2 hat htext
    simp only [actionAt] at hat
    rcases Option.bind_eq_some.mp hat with ⟨goalRec, hgoal, hact⟩
    have hr1 : ¬(g < 1 ∨ 8 < g) := by omega
    have hr2 : ¬(a < 1 ∨ 8 < a) := by omega
    have hG : chart.supportingGoals[g.toNat - 1]? = some goalRec := by
      rw [← Int.pred_toNat, ← List.get?_eq_getElem?]
      exact hgoal
    have hA : goalRec.actions[a.toNat - 1]? = some act := by
      rw [← Int.pred_toNat, ← List.get?_eq_getElem?]
      exact hact
    refine ⟨"Completed action " ++ toString g ++ "-" ++ toString a ++ ": '" ++
      act.text ++ "'! That's " ++
      toString (countCompleted ((goalSetDone goalRec (a.toNat - 1) (markDone act now)).actions)) ++
      "/8 for goal '" ++ goalRec.title ++ "'.",
      chartSetGoal chart (g.toNat - 1) (goalSetDone goalRec (a.toNat - 1) (markDone act now)),
      ?_, ?_, ?_, ?_⟩
    · simp [complete_action, hr1, hr2, hG, hA, htext, markDone, goalSetDone,
        chartSetGoal]
    · show actionAt _ g a = some (markDone act now)
      simp [actionAt, chartSetGoal, goalSetDone, markDone, hG, hA,
        List.getElem?_set_self']
    · intro g2 a2 hg21 hg22 ha21 ha22 hne
      by_cases hgg : g2 = g
      · subst hgg
        have hane : a.toNat - 1 ≠ a2.toNat - 1 := by
          have haa : a2 ≠ a := fun haa => hne ⟨rfl, haa⟩
          omega
        simp [actionAt, chartSetGoal, goalSetDone, markDone, hG,
          List.getElem?_set_self', List.getElem?_set_ne hane]
      · have hgne : g.toNat - 1 ≠ g2.toNat - 1 := by omega
        simp [actionAt, chartSetGoal, List.getElem?_set_ne hgne]
    · simp [complete_action, hr1, hr2, chartSetGoal, goalSetDone, markDone,
        hG, hA, htext, List.getElem?_set_self', List.set_set]

/-- C8 witness: on a concrete 8×8 chart whose action (1,1) has text "Run",
completing it succeeds, stamps the action, and repeating the call returns the
identical message and store; a concrete out-of-range call yields the range
message. -/
theorem complete_action_spec_witness :
    (∃ msg chart',
      complete_action (some exC8Chart) 1 1 "T1" = some (msg, some chart') ∧
      actionAt chart' 1 1 = some { id := "1-1", goalId := 1, text := "Run", completed := true, completedAt := some "T1" } ∧
      complete_action (some chart') 1 1 "T1" = some (msg, some chart')) ∧
    complete_action (some exC8Chart) 0 5 "T1" =
      some ("Goal number must be 1-8.", some exC8Chart) ∧
    complete_action (some exC8Chart) 2 1 "T1" =
      some ("Action 2-1 has no text defined.", some exC8Chart) := by
  refine ⟨?_, ?_, ?_⟩
  · obtain ⟨msg, chart', hrun, hdone, _, hrep⟩ :=
      (complete_action_spec exC8Chart 1 1 "T1").2.2.2
        { id := "1-1", goalId := 1, text := "Run", completed := false }
        (by decide) (by decide) (by decide) (by decide) (by decide) (by decide)
    exact ⟨msg, chart', hrun, hdone, hrep⟩
  · exact (complete_action_spec exC8Chart 0 5 "T1").1 (Or.inl (by decide))
  · exact (complete_action_spec exC8Chart 2 1 "T1").2.2.1
      { id := "2-1", goalId := 2, text := "", completed := false }
      (by decide) (by decide) (by decide) (by decide) (by decide) (by decide)

/-- The streak walk equals the length of the qualifying prefix of the
scanned day indices. -/
theorem streakGo_eq_takeWhile (q : Nat → Bool) :
    ∀ (fuel i : Nat),
      streakGo q fuel i = ((List.range' i fuel).takeWhile q).length := by
  intro fuel
  induction fuel with
  | zero => intro i; simp [streakGo]
  | succ n ih =>
    intro i
    rw [List.range'_succ]
    by_cases h : q i
    · simp [streakGo, h, List.takeWhile_cons, ih]
    · simp [streakGo, h, List.takeWhile_cons]

/-- A nonempty active set with a non-qualifying first day gives streak 0. -/
theorem habitStreak_zero_of_day0 (daysAgo : Nat → String)
    (habit_log : List (String × List (String × Bool))) (active : List Habit)
    (hne : active ≠ [])
    (hq0 : dayQualifies habit_log active (daysAgo 0) = false) :
    habitStreak daysAgo habit_log active = 0 := by
  have hie : active.isEmpty = false := by
    cases active with
    | nil => exact absurd rfl hne
    | cons a l => rfl
  rw [habitStreak, hie]
  simp only [Bool.false_eq_true, if_false]
  rw [streakGo_eq_takeWhile, List.range'_succ 0 364 1, List.takeWhile_cons, hq0]
  simp

/-- C5: the streak shared by `get_progress` and `get_overlay_state` (the
identical loop in both): with at least one active habit it is the length of
the maximal prefix of days 0..364 (today backwards) on which every active
habit is logged done (absent date or id = not done), stopping at the first
non-qualifying day; it is 0 when the habit log is empty, and an active habit
that appears in no logged day (e.g. added today with no history) forces
streak 0 regardless of other habits' logs.  The last conjunct ties the shared
computation to the overlay snapshot field (in `get_progress` the same
`habitStreak` value feeds the "Current streak" line). -/
theorem streak_spec (daysAgo : Nat → String)
    (habit_log : List (String × List (String × Bool))) (active : List Habit)
    (store : Store) (today : String) (createdDays deadlineDays : String → Option Int)
    (nowIso : String) (conv : Option (List ConvTurn)) :
    (active ≠ [] →
      habitStreak daysAgo habit_log active =
        ((List.range 365).takeWhile
          (fun i => dayQualifies habit_log active (daysAgo i))).length) ∧
    (habit_log = [] → habitStreak daysAgo habit_log active = 0) ∧
    (∀ h, h ∈ active → (∀ p ∈ habit_log, lookupD p.2 h.id false = false) →
      habitStreak daysAgo habit_log active = 0) ∧
    (get_overlay_state store today daysAgo createdDays deadlineDays nowIso conv).dashboard.streak =
      habitStreak daysAgo store.habitLog (store.habits.filter (·.active)) := by
  refine ⟨?_, ?_, ?_, rfl⟩
  · intro hne
    have hie : active.isEmpty = false := by
      cases active with
      | nil => exact absurd rfl hne
      | cons a l => rfl
    rw [habitStreak, hie]
    simp only [Bool.false_eq_true, if_false]
    rw [streakGo_eq_takeWhile, ← List.range_eq_range']
  · intro hlog
    subst hlog
    by_cases hne : active = []
    · subst hne
      rfl
    · refine habitStreak_zero_of_day0 daysAgo [] active hne ?_
      cases active with
      | nil => exact absurd rfl hne
      | cons a l =>
        simp [dayQualifies, lookupD]
  · intro h hmem hnever
    have hne : active ≠ [] := by
      intro he
      rw [he] at hmem
      exact absurd hmem (List.not_mem_nil h)
    refine habitStreak_zero_of_day0 daysAgo habit_log active hne ?_
    have hval : lookupD (lookupD habit_log (daysAgo 0) []) h.id false = false := by
      cases hfind : habit_log.find? (fun p => p.1 == daysAgo 0) with
      | none =>
        have hdl : lookupD habit_log (daysAgo 0) [] = [] := by rw [lookupD, hfind]
        rw [hdl]
        rfl
      | some p =>
        have hdl : lookupD habit_log (daysAgo 0) [] = p.2 := by rw [lookupD, hfind]
        rw [hdl]
        exact hnever p (List.mem_of_find?_eq_some hfind)
    apply Bool.eq_false_iff.mpr
    intro hall
    have := List.all_eq_true.mp hall h hmem
    rw [hval] at this
    exact Bool.false_ne_true this

/-- C5 witness: one habit logged done on days 0 and 1 but not 2 gives streak
2 (the qualifying-prefix length); an empty log gives 0; adding a second
habit with no log history at all drops the streak to 0 despite the first
habit's logged streak. -/
theorem streak_spec_witness :
    habitStreak exDaysAgo exLog3 [exHabitA] =
      ((List.range 365).takeWhile
        (fun i => dayQualifies exLog3 [exHabitA] (exDaysAgo i))).length ∧
    habitStreak exDaysAgo exLog3 [exHabitA] = 2 ∧
    habitStreak exDaysAgo [] [exHabitA] = 0 ∧
    habitStreak exDaysAgo exLog3 [exHabitA, exHabitNew] = 0 := by
  refine ⟨(streak_spec exDaysAgo exLog3 [exHabitA] ⟨none, none, [], [], []⟩
      "d0" (fun _ => none) (fun _ => none) "ts" none).1 (by decide),
    by decide, ?_, ?_⟩
  · exact (streak_spec exDaysAgo [] [exHabitA] ⟨none, none, [], [], []⟩
      "d0" (fun _ => none) (fun _ => none) "ts" none).2.1 rfl
  · exact (streak_spec exDaysAgo exLog3 [exHabitA, exHabitNew]
      ⟨none, none, [], [], []⟩ "d0" (fun _ => none) (fun _ => none) "ts"
      none).2.2.1 exHabitNew (by decide) (by decide)

/-- Closed form of the `get_progress` OW64 fold: goals with empty titles are
dropped; per kept goal, `done` counts ALL completed actions and `total` the
non-empty ones. -/
theorem progress_ow64_foldl (l : List SupportingGoal) (d t : Nat)
    (gs : List GoalSummary) :
    l.foldl progressOw64Acc (d, t, gs) =
      (d + ((l.filter (fun g => g.title ≠ "")).map
          (fun g => countCompleted g.actions)).sum,
       t + ((l.filter (fun g => g.title ≠ "")).map
          (fun g => countFilled g.actions)).sum,
       gs ++ (l.filter (fun g => g.title ≠ "")).map (fun g =>
         (⟨g.id, g.title, countCompleted g.actions, countFilled g.actions,
           if 0 < countFilled g.actions then
             pyRound ((countCompleted g.actions : ℚ) /
               (countFilled g.actions : ℚ) * 100)
           else 0⟩ : GoalSummary))) := by
  induction l generalizing d t gs with
  | nil => simp
  | cons g l ih =>
    rw [List.foldl_cons]
    by_cases hg : g.title = ""
    · simp [progressOw64Acc, hg, ih, List.filter_cons]
    · simp [progressOw64Acc, hg, ih, List.filter_cons, Nat.add_assoc]

/-- Closed form of the `get_overlay_state` OW64 fold: every goal feeds the
totals (`done` counting ALL completed actions); only titled goals produce a
`goalProgress` record. -/
theorem overlay_ow64_foldl (l : List SupportingGoal) (d t : Nat)
    (gp : List GoalPct) :
    l.foldl overlayOw64Acc (d, t, gp) =
      (d + (l.map (fun g => countCompleted g.actions)).sum,
       t + (l.map (fun g => countFilled g.actions)).sum,
       gp ++ (l.filter (fun g => g.title ≠ "")).map (fun g =>
         (⟨g.id, g.title,
           if 0 < countFilled g.actions then
             pyRound ((countCompleted g.actions : ℚ) /
               (countFilled g.actions : ℚ) * 100)
           else 0⟩ : GoalPct))) := by
  induction l generalizing d t gp with
  | nil => simp
  | cons g l ih =>
    rw [List.foldl_cons]
    by_cases hg : g.title = ""
    · simp [overlayOw64Acc, hg, ih, List.filter_cons, Nat.add_assoc]
    · simp [overlayOw64Acc, hg, ih, List.filter_cons, Nat.add_assoc]

/-- C4 counterexample: on a stored chart holding a completed action whose
text was later cleared (reachable via `setup_supporting_goal` overwriting)
and a filled action under an untitled goal, the code's `done`/`total` differ
from the claim's "count completed among non-empty actions over all slots":
`get_progress` reports 1/1 (the untitled goal's filled action is not
counted, the empty-text completed action is), `get_overlay_state` reports
done 1 of total 2 (50%), while the claim's formula gives 0 of 2 (0%). -/
theorem ow64_completion_counterexample :
    (progress_ow64 (some cx4Chart)).1 = 1 ∧
    (progress_ow64 (some cx4Chart)).2.1 = 1 ∧
    (overlay_ow64 (some cx4Chart)).1 = 1 ∧
    (overlay_ow64 (some cx4Chart)).2.1 = 2 ∧
    specOw64Done cx4Chart = 0 ∧
    specOw64Total cx4Chart = 2 ∧
    (get_overlay_state cx4Store "d" exDaysAgo (fun _ => none) (fun _ => none)
      "ts" none).dashboard.ow64Completion = 50 ∧
    specOw64Pct cx4Chart = 0 ∧
    (get_overlay_state cx4Store "d" exDaysAgo (fun _ => none) (fun _ => none)
      "ts" none).dashboard.ow64Completion ≠ specOw64Pct cx4Chart := by
  have hov1 : (overlay_ow64 cx4Store.ow64).1 = 1 := by decide
  have hov2 : (overlay_ow64 cx4Store.ow64).2.1 = 2 := by decide
  have hfield : (get_overlay_state cx4Store "d" exDaysAgo (fun _ => none)
      (fun _ => none) "ts" none).dashboard.ow64Completion =
      (if 0 < (overlay_ow64 cx4Store.ow64).2.1 then
        pyRound (((overlay_ow64 cx4Store.ow64).1 : ℚ) /
          ((overlay_ow64 cx4Store.ow64).2.1 : ℚ) * 100)
      else 0) := rfl
  have hcompl : (get_overlay_state cx4Store "d" exDaysAgo (fun _ => none)
      (fun _ => none) "ts" none).dashboard.ow64Completion = 50 := by
    rw [hfield, hov1, hov2]
    norm_num [pyRound]
  have hd : specOw64Done cx4Chart = 0 := by decide
  have ht : specOw64Total cx4Chart = 2 := by decide
  have hpct : specOw64Pct cx4Chart = 0 := by
    rw [specOw64Pct, hd, ht]
    norm_num [pyRound]
  refine ⟨by decide, by decide, hov1, hov2, hd, ht, hcompl, hpct, ?_⟩
  rw [hcompl, hpct]
  decide

/-- C4 amended: in both computations `total` counts non-empty-text actions
and `done` counts ALL actions with completed=true (also those whose text is
empty); `get_progress` additionally restricts BOTH counts (and the per-goal
summaries) to goals with a non-empty title, while `get_overlay_state` feeds
every goal into the totals; percentages are `round(done/total × 100)` with 0
when total is 0.  Under this reading the spec's worked examples hold:
3 completed of 6 filled gives 50, and a chart with 0 filled actions gives 0
with no division error. -/
theorem ow64_completion_amended (o : Ow64) (store : Store) (today : String)
    (daysAgo : Nat → String) (createdDays deadlineDays : String → Option Int)
    (nowIso : String) (conv : Option (List ConvTurn)) :
    ((overlay_ow64 (some o)).1 =
      (o.supportingGoals.map (fun g => countCompleted g.actions)).sum ∧
     (overlay_ow64 (some o)).2.1 =
      (o.supportingGoals.map (fun g => countFilled g.actions)).sum ∧
     (overlay_ow64 (some o)).2.2 =
      (o.supportingGoals.filter (fun g => g.title ≠ "")).map (fun g =>
        (⟨g.id, g.title,
          if 0 < countFilled g.actions then
            pyRound ((countCompleted g.actions : ℚ) /
              (countFilled g.actions : ℚ) * 100)
          else 0⟩ : GoalPct))) ∧
    ((progress_ow64 (some o)).1 =
      ((o.supportingGoals.filter (fun g => g.title ≠ "")).map
        (fun g => countCompleted g.actions)).sum ∧
     (progress_ow64 (some o)).2.1 =
      ((o.supportingGoals.filter (fun g => g.title ≠ "")).map
        (fun g => countFilled g.actions)).sum ∧
     (progress_ow64 (some o)).2.2 =
      (o.supportingGoals.filter (fun g => g.title ≠ "")).map (fun g =>
        (⟨g.id, g.title, countCompleted g.actions, countFilled g.actions,
          if 0 < countFilled g.actions then
            pyRound ((countCompleted g.actions : ℚ) /
              (countFilled g.actions : ℚ) * 100)
          else 0⟩ : GoalSummary))) ∧
    ((get_overlay_state store today daysAgo createdDays deadlineDays nowIso
        conv).dashboard.ow64Done = (overlay_ow64 store.ow64).1 ∧
     (get_overlay_state store today daysAgo createdDays deadlineDays nowIso
        conv).dashboard.ow64Total = (overlay_ow64 store.ow64).2.1 ∧
     (get_overlay_state store today daysAgo createdDays deadlineDays nowIso
        conv).dashboard.goalProgress = (overlay_ow64 store.ow64).2.2 ∧
     (get_overlay_state store today daysAgo createdDays deadlineDays nowIso
        conv).dashboard.ow64Completion =
      (if 0 < (overlay_ow64 store.ow64).2.1 then
        pyRound (((overlay_ow64 store.ow64).1 : ℚ) /
          ((overlay_ow64 store.ow64).2.1 : ℚ) * 100)
      else 0)) ∧
    ((overlay_ow64 (some exSixChart)).1 = 3 ∧
     (overlay_ow64 (some exSixChart)).2.1 = 6 ∧
     (get_overlay_state exSixStore today daysAgo createdDays deadlineDays
        nowIso conv).dashboard.ow64Completion = 50 ∧
     progress_ow64 (some exEmptyChart) = (0, 0, [⟨1, "t", 0, 0, 0⟩]) ∧
     (get_overlay_state exEmptyStore today daysAgo
        createdDays deadlineDays nowIso conv).dashboard.ow64Completion = 0) := by
  have hov : ∀ o' : Ow64, overlay_ow64 (some o') =
      ((o'.supportingGoals.map (fun g => countCompleted g.actions)).sum,
       (o'.supportingGoals.map (fun g => countFilled g.actions)).sum,
       (o'.supportingGoals.filter (fun g => g.title ≠ "")).map (fun g =>
         (⟨g.id, g.title,
           if 0 < countFilled g.actions then
             pyRound ((countCompleted g.actions : ℚ) /
               (countFilled g.actions : ℚ) * 100)
           else 0⟩ : GoalPct))) := by
    intro o'
    simp only [overlay_ow64]
    by_cases he : o'.supportingGoals.isEmpty = true
    · have h0 : o'.supportingGoals = [] := List.isEmpty_iff.mp he
      simp [h0]
    · rw [if_neg he, overlay_ow64_foldl]
      simp
  have hpr : ∀ o' : Ow64, progress_ow64 (some o') =
      (((o'.supportingGoals.filter (fun g => g.title ≠ "")).map
          (fun g => countCompleted g.actions)).sum,
       ((o'.supportingGoals.filter (fun g => g.title ≠ "")).map
          (fun g => countFilled g.actions)).sum,
       (o'.supportingGoals.filter (fun g => g.title ≠ "")).map (fun g =>
         (⟨g.id, g.title, countCompleted g.actions, countFilled g.actions,
           if 0 < countFilled g.actions then
             pyRound ((countCompleted g.actions : ℚ) /
               (countFilled g.actions : ℚ) * 100)
           else 0⟩ : GoalSummary))) := by
    intro o'
    simp only [progress_ow64]
    by_cases he : o'.supportingGoals.isEmpty = true
    · have h0 : o'.supportingGoals = [] := List.isEmpty_iff.mp he
      simp [h0]
    · rw [if_neg he, progress_ow64_foldl]
      simp
  refine ⟨⟨?_, ?_, ?_⟩, ⟨?_, ?_, ?_⟩, ⟨rfl, rfl, rfl, rfl⟩, ?_, ?_, ?_, ?_, ?_⟩
  · rw [hov o]
  · rw [hov o]
  · rw [hov o]
  · rw [hpr o]
  · rw [hpr o]
  · rw [hpr o]
  · decide
  · decide
  · have h1 : (overlay_ow64 exSixStore.ow64).1 = 3 := by decide
    have h2 : (overlay_ow64 exSixStore.ow64).2.1 = 6 := by decide
    have hfield : (get_overlay_state exSixStore today daysAgo createdDays
        deadlineDays nowIso conv).dashboard.ow64Completion =
        (if 0 < (overlay_ow64 exSixStore.ow64).2.1 then
          pyRound (((overlay_ow64 exSixStore.ow64).1 : ℚ) /
            ((overlay_ow64 exSixStore.ow64).2.1 : ℚ) * 100)
        else 0) := rfl
    rw [hfield, h1, h2]
    norm_num [pyRound]
  · decide
  · have h2 : (overlay_ow64 exEmptyStore.ow64).2.1 = 0 := by decide
    have hfield : (get_overlay_state exEmptyStore today daysAgo createdDays
        deadlineDays nowIso conv).dashboard.ow64Completion =
        (if 0 < (overlay_ow64 exEmptyStore.ow64).2.1 then
          pyRound (((overlay_ow64 exEmptyStore.ow64).1 : ℚ) /
            ((overlay_ow64 exEmptyStore.ow64).2.1 : ℚ) * 100)
        else 0) := rfl
    rw [hfield, h2]
    simp

/-- C9 counterexample: with a stored mood of 0 today (storable, since the
tools enforce no range) and mood 4 yesterday, the claim's "mean over entries
with a non-null mood" is 2, but the overlay skips the falsy 0 and reports
4.0 — the code tests truthiness (`if entry.get("mood")`), not non-null. -/
theorem mood_average_counterexample :
    (get_overlay_state cx9Store "d0" exDaysAgo (fun _ => none) (fun _ => none)
      "ts" none).dashboard.avgMood = some 4 ∧
    specMoodVals cx9Journal exDaysAgo = [0, 4] ∧
    specAvgMood cx9Journal exDaysAgo = some 2 ∧
    (get_overlay_state cx9Store "d0" exDaysAgo (fun _ => none) (fun _ => none)
      "ts" none).dashboard.avgMood ≠ specAvgMood cx9Journal exDaysAgo := by
  have hm : overlayMoods cx9Store.journal exDaysAgo = [4] := by decide
  have hfield : (get_overlay_state cx9Store "d0" exDaysAgo (fun _ => none)
      (fun _ => none) "ts" none).dashboard.avgMood =
      (if (overlayMoods cx9Store.journal exDaysAgo).isEmpty then none
       else some (pyRound1 (((overlayMoods cx9Store.journal exDaysAgo).sum : ℚ) /
         ((overlayMoods cx9Store.journal exDaysAgo).length : ℚ)))) := rfl
  have havg : (get_overlay_state cx9Store "d0" exDaysAgo (fun _ => none)
      (fun _ => none) "ts" none).dashboard.avgMood = some 4 := by
    rw [hfield, hm]
    norm_num [pyRound1, pyRound]
  have hv : specMoodVals cx9Journal exDaysAgo = [0, 4] := by decide
  have hspec : specAvgMood cx9Journal exDaysAgo = some 2 := by
    rw [specAvgMood, hv]
    norm_num
  refine ⟨havg, hv, hspec, ?_⟩
  rw [havg, hspec]
  intro h
  have := Option.some.inj h
  norm_num at this

/-- C9 amended: the overlay's rolling averages are the mean — rounded to one
decimal digit — of the mood (resp. energy) values over the last 30 calendar
days whose entry exists and whose value is truthy (present and NON-ZERO; a
stored 0 is skipped), and are absent (`None`), not zero, when no such value
exists. -/
theorem mood_energy_average_amended (store : Store) (today : String)
    (daysAgo : Nat → String) (createdDays deadlineDays : String → Option Int)
    (nowIso : String) (conv : Option (List ConvTurn)) :
    overlayMoods store.journal daysAgo = truthyMoodVals store.journal daysAgo ∧
    overlayEnergies store.journal daysAgo = truthyEnergyVals store.journal daysAgo ∧
    (get_overlay_state store today daysAgo createdDays deadlineDays nowIso
        conv).dashboard.avgMood =
      (if (truthyMoodVals store.journal daysAgo).isEmpty then none
       else some (pyRound1 (((truthyMoodVals store.journal daysAgo).sum : ℚ) /
         ((truthyMoodVals store.journal daysAgo).length : ℚ)))) ∧
    (get_overlay_state store today daysAgo createdDays deadlineDays nowIso
        conv).dashboard.avgEnergy =
      (if (truthyEnergyVals store.journal daysAgo).isEmpty then none
       else some (pyRound1 (((truthyEnergyVals store.journal daysAgo).sum : ℚ) /
         ((truthyEnergyVals store.journal daysAgo).length : ℚ)))) ∧
    (truthyMoodVals store.journal daysAgo = [] →
      (get_overlay_state store today daysAgo createdDays deadlineDays nowIso
        conv).dashboard.avgMood = none) := by
  have hm : overlayMoods store.journal daysAgo = truthyMoodVals store.journal daysAgo := by
    rw [overlayMoods, truthyMoodVals]
    congr 1
    funext i
    cases h : journalLookup store.journal (daysAgo i) with
    | none => rfl
    | some e => rfl
  have he : overlayEnergies store.journal daysAgo = truthyEnergyVals store.journal daysAgo := by
    rw [overlayEnergies, truthyEnergyVals]
    congr 1
    funext i
    cases h : journalLookup store.journal (daysAgo i) with
    | none => rfl
    | some e => rfl
  have hfm : (get_overlay_state store today daysAgo createdDays deadlineDays
      nowIso conv).dashboard.avgMood =
      (if (overlayMoods store.journal daysAgo).isEmpty then none
       else some (pyRound1 (((overlayMoods store.journal daysAgo).sum : ℚ) /
         ((overlayMoods store.journal daysAgo).length : ℚ)))) := rfl
  have hfe : (get_overlay_state store today daysAgo createdDays deadlineDays
      nowIso conv).dashboard.avgEnergy =
      (if (overlayEnergies store.journal daysAgo).isEmpty then none
       else some (pyRound1 (((overlayEnergies store.journal daysAgo).sum : ℚ) /
         ((overlayEnergies store.journal daysAgo).length : ℚ)))) := rfl
  refine ⟨hm, he, ?_, ?_, ?_⟩
  · rw [hfm, hm]
  · rw [hfe, he]
  · intro hz
    rw [hfm, hm, hz]
    rfl

/-- A prefix is no longer than the string it starts. -/
theorem startsWith_length_le :
    ∀ (p s : List Char), startsWithChars p s = true → p.length ≤ s.length := by
  intro p
  induction p with
  | nil => intro s _; simp
  | cons c cs ih =>
    intro s h
    cases s with
    | nil => simp [startsWithChars] at h
    | cons d ds =>
      simp only [startsWithChars, Bool.and_eq_true] at h
      simpa using ih ds h.2

/-- A contiguous substring is no longer than its string. -/
theorem contains_length_le :
    ∀ (s p : List Char), containsChars s p = true → p.length ≤ s.length := by
  intro s
  induction s with
  | nil =>
    intro p h
    simp only [containsChars, List.isEmpty_iff] at h
    simp [h]
  | cons c cs ih =>
    intro p h
    simp only [containsChars, Bool.or_eq_true] at h
    rcases h with h | h
    · exact startsWith_length_le p (c :: cs) h
    · exact Nat.le_trans (ih p h) (by simp)

/-- Candidate scores are nonnegative. -/
theorem candScore_nonneg (q : List Char) (item : Habit) : 0 ≤ candScore q item := by
  rw [candScore]
  split_ifs <;> norm_num [le_max_iff]

/-- For a nonempty (trimmed) query, every candidate score is at most 100. -/
theorem candScore_le_100 (q : List Char) (item : Habit) (hq : q ≠ []) :
    candScore q item ≤ 100 := by
  have hql : 1 ≤ q.length := List.length_pos.mpr hq
  rw [candScore]
  split_ifs with h1 h2 h3 h4
  · norm_num
  · have hlen := contains_length_le (lowerChars item.name) q h2
    have hpos : (0:ℚ) < ((lowerChars item.name).length : ℚ) := by
      have : 0 < (lowerChars item.name).length := Nat.lt_of_lt_of_le hql hlen
      exact_mod_cast this
    have hr : (q.length : ℚ) / ((lowerChars item.name).length : ℚ) ≤ 1 := by
      rw [div_le_one hpos]
      exact_mod_cast hlen
    have : (q.length : ℚ) / ((lowerChars item.name).length : ℚ) * 90 ≤ 90 := by
      nlinarith [div_nonneg (by positivity : (0:ℚ) ≤ (q.length : ℚ)) (le_of_lt hpos)]
    apply max_le <;> linarith
  · norm_num
  · have hlen := contains_length_le q (lowerChars item.name) h4
    have hpos : (0:ℚ) < (q.length : ℚ) := by exact_mod_cast hql
    have hr : ((lowerChars item.name).length : ℚ) / (q.length : ℚ) ≤ 1 := by
      rw [div_le_one hpos]
      exact_mod_cast hlen
    have : ((lowerChars item.name).length : ℚ) / (q.length : ℚ) * 80 ≤ 80 := by
      nlinarith [div_nonneg (by positivity : (0:ℚ) ≤ ((lowerChars item.name).length : ℚ)) (le_of_lt hpos)]
    apply max_le <;> linarith
  · norm_num

/-- Folding `max` over elements all below the seed keeps the seed. -/
theorem foldl_max_of_all_le (l : List ℚ) (b : ℚ) (h : ∀ x ∈ l, x ≤ b) :
    l.foldl max b = b := by
  induction l with
  | nil => rfl
  | cons x l ih =>
    rw [List.foldl_cons, max_eq_left (h x (List.mem_cons_self x l))]
    exact ih (fun y hy => h y (List.mem_cons_of_mem x hy))

/-- The seed is below the fold of `max`. -/
theorem le_foldl_max (l : List ℚ) : ∀ b : ℚ, b ≤ l.foldl max b := by
  induction l with
  | nil => intro b; exact le_refl b
  | cons x l ih =>
    intro b
    rw [List.foldl_cons]
    exact le_trans (le_max_left b x) (ih (max b x))

/-- Every element is below the fold of `max`. -/
theorem mem_le_foldl_max (l : List ℚ) : ∀ (b x : ℚ), x ∈ l → x ≤ l.foldl max b := by
  induction l with
  | nil => intro b x hx; exact absurd hx (List.not_mem_nil x)
  | cons y l ih =>
    intro b x hx
    rw [List.foldl_cons]
    rcases List.mem_cons.mp hx with rfl | hx
    · exact le_trans (le_max_right b x) (le_foldl_max l (max b x))
    · exact ih (max b y) x hx

/-- The fold of `max` stays below any common upper bound. -/
theorem foldl_max_le_of (l : List ℚ) :
    ∀ (b c : ℚ), b ≤ c → (∀ x ∈ l, x ≤ c) → l.foldl max b ≤ c := by
  induction l with
  | nil => intro b c hb _; exact hb
  | cons x l ih =>
    intro b c hb h
    rw [List.foldl_cons]
    exact ih (max b x) c (max_le hb (h x (List.mem_cons_self x l)))
      (fun y hy => h y (List.mem_cons_of_mem x hy))

/-- Unfolding of the `_fuzzy_match` candidate loop on a cons cell. -/
theorem fuzzyGo_cons (q : List Char) (item : Habit) (rest : List Habit)
    (best : Option Habit) (s : ℚ) :
    fuzzyGo q (item :: rest) best s =
      (if q = lowerChars item.name then (some item, (100:ℚ))
       else if containsChars (lowerChars item.name) q then
         (if max 40 ((q.length : ℚ) / ((lowerChars item.name).length : ℚ) * 90) > s then
            fuzzyGo q rest (some item)
              (max 40 ((q.length : ℚ) / ((lowerChars item.name).length : ℚ) * 90))
          else fuzzyGo q rest best s)
       else if (splitWs q).all
           (fun qw => (splitWs (lowerChars item.name)).any (fun nw => containsChars nw qw)) then
         (if (60:ℚ) > s then fuzzyGo q rest (some item) 60 else fuzzyGo q rest best s)
       else if containsChars q (lowerChars item.name) then
         (if max 40 (((lowerChars item.name).length : ℚ) / (q.length : ℚ) * 80) > s then
            fuzzyGo q rest (some item)
              (max 40 (((lowerChars item.name).length : ℚ) / (q.length : ℚ) * 80))
          else fuzzyGo q rest best s)
       else fuzzyGo q rest best s) := by
  rw [fuzzyGo]

/-- The candidate loop computes the running maximum of the per-candidate
scores (first candidate wins ties), and the returned item — when it is not
the incoming `best` — is a scanned candidate achieving the returned score. -/
theorem fuzzyGo_spec (q : List Char) (hq : q ≠ []) :
    ∀ (items : List Habit) (best : Option Habit) (s : ℚ),
      0 ≤ s → s ≤ 100 →
      (fuzzyGo q items best s).2 = (items.map (candScore q)).foldl max s ∧
      (fuzzyGo q items best s = (best, s) ∨
        ∃ c ∈ items, (fuzzyGo q items best s).1 = some c ∧
          candScore q c = (fuzzyGo q items best s).2) := by
  intro items
  induction items with
  | nil =>
    intro best s _ _
    exact ⟨rfl, Or.inl rfl⟩
  | cons item rest ih =>
    intro best s hs0 hs100
    have hle := candScore_le_100 q item hq
    have hge := candScore_nonneg q item
    by_cases hex : q = lowerChars item.name
    · rw [fuzzyGo_cons, if_pos hex]
      have hcs : candScore q item = 100 := by rw [candScore, if_pos hex]
      constructor
      · rw [List.map_cons, List.foldl_cons, hcs, max_eq_right hs100]
        refine (foldl_max_of_all_le _ _ ?_).symm
        intro x hx
        obtain ⟨c, _, rfl⟩ := List.mem_map.mp hx
        exact candScore_le_100 q c hq
      · exact Or.inr ⟨item, List.mem_cons_self item rest, rfl, hcs⟩
    · have step : ∀ e : ℚ, candScore q item = e →
          ((if e > s then fuzzyGo q rest (some item) e else fuzzyGo q rest best s).2 =
            ((item :: rest).map (candScore q)).foldl max s ∧
           ((if e > s then fuzzyGo q rest (some item) e else fuzzyGo q rest best s) = (best, s) ∨
             ∃ c ∈ item :: rest,
               (if e > s then fuzzyGo q rest (some item) e else fuzzyGo q rest best s).1 = some c ∧
               candScore q c =
                 (if e > s then fuzzyGo q rest (some item) e else fuzzyGo q rest best s).2)) := by
        intro e hcs
        subst hcs
        by_cases hgt : candScore q item > s
        · rw [if_pos hgt]
          obtain ⟨ihA, ihB⟩ := ih (some item) (candScore q item) hge hle
          refine ⟨?_, ?_⟩
          · rw [ihA, List.map_cons, List.foldl_cons,
              max_eq_right (le_of_lt hgt)]
          · rcases ihB with heq | ⟨c, hc, h1, h2⟩
            · refine Or.inr ⟨item, List.mem_cons_self item rest, ?_, ?_⟩
              · rw [heq]
              · rw [heq]
            · exact Or.inr ⟨c, List.mem_cons_of_mem item hc, h1, h2⟩
        · rw [if_neg hgt]
          obtain ⟨ihA, ihB⟩ := ih best s hs0 hs100
          refine ⟨?_, ?_⟩
          · rw [ihA, List.map_cons, List.foldl_cons,
              max_eq_left (not_lt.mp hgt)]
          · rcases ihB with heq | ⟨c, hc, h1, h2⟩
            · exact Or.inl heq
            · exact Or.inr ⟨c, List.mem_cons_of_mem item hc, h1, h2⟩
      rw [fuzzyGo_cons, if_neg hex]
      by_cases h1 : containsChars (lowerChars item.name) q
      · rw [if_pos h1]
        exact step _ (by rw [candScore, if_neg hex, if_pos h1])
      · rw [if_neg h1]
        by_cases h2 : (splitWs q).all
            (fun qw => (splitWs (lowerChars item.name)).any (fun nw => containsChars nw qw))
        · rw [if_pos h2]
          exact step 60 (by rw [candScore, if_neg hex, if_neg h1, if_pos h2])
        · rw [if_neg h2]
          by_cases h3 : containsChars q (lowerChars item.name)
          · rw [if_pos h3]
            exact step _ (by rw [candScore, if_neg hex, if_neg h1, if_neg h2, if_pos h3])
          · rw [if_neg h3]
            have hcs : candScore q item = 0 := by
              rw [candScore, if_neg hex, if_neg h1, if_neg h2, if_neg h3]
            obtain ⟨ihA, ihB⟩ := ih best s hs0 hs100
            refine ⟨?_, ?_⟩
            · rw [ihA, List.map_cons, List.foldl_cons, hcs, max_eq_left hs0]
            · rcases ihB with heq | ⟨c, hc, hh1, hh2⟩
              · exact Or.inl heq
              · exact Or.inr ⟨c, List.mem_cons_of_mem item hc, hh1, hh2⟩

/-- C6: the fuzzy match lowers and trims the query and scores candidates by
the rules of `candScore` (exact 100; query-in-name `max 40 (|q|/|n|·90)`;
all-words 60; name-in-query `max 40 (|n|/|q|·80)`; else no match), keeping
the highest-scoring candidate (the returned score is the maximum of the
per-candidate scores, and any positive result is achieved by a returned
candidate); an empty trimmed query or an empty candidate list yields
`(None, 0)`; an exact case-insensitive match always scores 100; and a query
unrelated to every candidate (no rule applies) scores 0, below the
acceptance threshold 30. -/
theorem fuzzy_match_rules (query : List Char) (cands : List Habit) :
    (trimChars (lowerChars query) = [] → _fuzzy_match query cands = (none, 0)) ∧
    (cands = [] → _fuzzy_match query cands = (none, 0)) ∧
    (trimChars (lowerChars query) ≠ [] →
      (_fuzzy_match query cands).2 =
        (cands.map (candScore (trimChars (lowerChars query)))).foldl max 0) ∧
    (trimChars (lowerChars query) ≠ [] →
      (∃ c ∈ cands, trimChars (lowerChars query) = lowerChars c.name) →
      (_fuzzy_match query cands).2 = 100) ∧
    (0 < (_fuzzy_match query cands).2 →
      ∃ c ∈ cands, (_fuzzy_match query cands).1 = some c ∧
        candScore (trimChars (lowerChars query)) c = (_fuzzy_match query cands).2) ∧
    ((∀ c ∈ cands, candScore (trimChars (lowerChars query)) c = 0) →
      (_fuzzy_match query cands).2 < 30) := by
  have hm : trimChars (lowerChars query) ≠ [] →
      _fuzzy_match query cands =
        fuzzyGo (trimChars (lowerChars query)) cands none 0 := by
    intro hne
    simp [_fuzzy_match, List.isEmpty_iff, hne]
  refine ⟨?_, ?_, ?_, ?_, ?_, ?_⟩
  · intro h
    simp [_fuzzy_match, List.isEmpty_iff, h]
  · intro h
    subst h
    by_cases he : trimChars (lowerChars query) = []
    · simp [_fuzzy_match, List.isEmpty_iff, he]
    · simp [_fuzzy_match, List.isEmpty_iff, he, fuzzyGo]
  · intro hne
    rw [hm hne]
    exact (fuzzyGo_spec (trimChars (lowerChars query)) hne cands none 0
      le_rfl (by norm_num)).1
  · intro hne hex
    obtain ⟨c, hc, hcex⟩ := hex
    rw [hm hne, (fuzzyGo_spec (trimChars (lowerChars query)) hne cands none 0
      le_rfl (by norm_num)).1]
    have hcs : candScore (trimChars (lowerChars query)) c = 100 := by
      rw [candScore, if_pos hcex]
    apply le_antisymm
    · refine foldl_max_le_of _ 0 100 (by norm_num) ?_
      intro x hx
      obtain ⟨d, _, rfl⟩ := List.mem_map.mp hx
      exact candScore_le_100 _ d hne
    · calc (100:ℚ) = candScore (trimChars (lowerChars query)) c := hcs.symm
        _ ≤ _ := mem_le_foldl_max _ 0 _ (List.mem_map.mpr ⟨c, hc, rfl⟩)
  · intro hpos
    by_cases hne : trimChars (lowerChars query) = []
    · have h0 : _fuzzy_match query cands = (none, 0) := by
        simp [_fuzzy_match, List.isEmpty_iff, hne]
      rw [h0] at hpos
      norm_num at hpos
    · rw [hm hne] at hpos ⊢
      rcases (fuzzyGo_spec (trimChars (lowerChars query)) hne cands none 0
        le_rfl (by norm_num)).2 with heq | ⟨c, hc, h1, h2⟩
      · rw [heq] at hpos
        norm_num at hpos
      · exact ⟨c, hc, h1, h2⟩
  · intro hall
    by_cases hne : trimChars (lowerChars query) = []
    · have h0 : _fuzzy_match query cands = (none, 0) := by
        simp [_fuzzy_match, List.isEmpty_iff, hne]
      rw [h0]
      norm_num
    · rw [hm hne, (fuzzyGo_spec (trimChars (lowerChars query)) hne cands none 0
        le_rfl (by norm_num)).1]
      have hz : (cands.map (candScore (trimChars (lowerChars query)))).foldl max 0 = 0 := by
        refine foldl_max_of_all_le _ 0 ?_
        intro x hx
        obtain ⟨d, hd, rfl⟩ := List.mem_map.mp hx
        exact le_of_eq (hall d hd)
      rw [hz]
      norm_num

/-- C6 witness: "exercise" exactly matches candidate "Exercise" (score 100);
a whitespace-only query and an empty candidate list yield no match; the
unrelated query "qqq" scores below the acceptance threshold 30. -/
theorem fuzzy_match_rules_witness :
    (_fuzzy_match "exercise".toList exCands).2 = 100 ∧
    _fuzzy_match "   ".toList exCands = (none, 0) ∧
    _fuzzy_match "test".toList [] = (none, 0) ∧
    (_fuzzy_match "qqq".toList exCands).2 < 30 := by
  refine ⟨?_, ?_, ?_, ?_⟩
  · exact (fuzzy_match_rules "exercise".toList exCands).2.2.2.1 (by decide)
      ⟨{ id := "id-0", name := "Exercise".toList }, by decide, by decide⟩
  · exact (fuzzy_match_rules "   ".toList exCands).1 (by decide)
  · exact (fuzzy_match_rules "test".toList []).2.1 rfl
  · exact (fuzzy_match_rules "qqq".toList exCands).2.2.2.2.2 (by decide)

/-- C9 amended-claim witness: a store with no journal at all has no truthy
mood values, so the rolling mood average is absent (`None`), not zero. -/
theorem mood_energy_average_amended_witness :
    (get_overlay_state ⟨none, none, [], [], []⟩ "d0" exDaysAgo (fun _ => none)
      (fun _ => none) "ts" none).dashboard.avgMood = none := by
  exact (mood_energy_average_amended ⟨none, none, [], [], []⟩ "d0" exDaysAgo
    (fun _ => none) (fun _ => none) "ts" none).2.2.2.2 (by decide)
